import Mathlib

/-!
Verification of the request/reply coordination layer of the microsaas
invoicing system (API gateway, invoice-svc, email-svc, payment-svc).

The TypeScript sources are shallowly embedded: each promise executor,
worker subscription loop body and shutdown routine becomes an executable
Lean function transcribed from the corresponding source function, and the
claims about the coordination layer are settled as theorems about those
functions.
-/

namespace Microsaas

/-! ## Correlation-layer exchange model

Embeds the two request/reply promise executors:
 - api-gateway `src/routes/invoice.routes.ts`, GET handler, the
   `responsePromise` built from `setTimeout`, `subscribeToSubject` and
   `publishMessage`;
 - invoice-svc `src/handlers/sendInvoice.ts`, the `responsePromise`
   built from `setTimeout`, `natsClient.subscribe` and
   `natsClient.publish`.

The executor runs synchronously; afterwards the exchange is driven by
two kinds of events: a message delivered on the reply subject, and the
timer firing.  A JavaScript promise settles at most once: later calls of
`resolve` or `reject` are ignored, which `settle` encodes. -/

/-- Settlement of a promise: `resolved` with a payload or `rejected`
with an error message. -/
inductive Outcome (α : Type) : Type
  | resolved (a : α)
  | rejected (err : String)
deriving DecidableEq, Repr

/-- State of one request/reply exchange after the executor ran:
whether the reply-subject subscription is still open, whether the
timeout timer is still pending, and the settlement of the promise
(`none` while pending). -/
structure ExchangeState (α : Type) : Type where
  subOpen : Bool
  timerActive : Bool
  settled : Option (Outcome α)
deriving DecidableEq, Repr

/-- Settling a JavaScript promise: the first call wins, later calls of
resolve or reject are no-ops. -/
def settle {α : Type} (s : ExchangeState α) (o : Outcome α) : ExchangeState α :=
  match s.settled with
  | some _ => s
  | none => { s with settled := some o }

/-- Events driving an exchange: a message delivered on the reply
subject, or the timeout timer firing. -/
inductive Ev (μ : Type) : Type
  | replyMsg (m : μ)
  | timerFired
deriving DecidableEq, Repr

/-- Whether an event is a reply-subject delivery. -/
def Ev.isReply {μ : Type} : Ev μ → Bool
  | .replyMsg _ => true
  | .timerFired => false

/-- One event step of an exchange, parameterized by `interp`, the part
of the reply callback that turns the delivered message into a
settlement.  Transcribed from the source:

 - reply callback (both sites): `clearTimeout(timeout);
   subscription.unsubscribe();` and then resolve or reject according to
   the message (`interp`); it only runs while the subscription is open;
 - timeout callback (both sites): `reject(new Error(... timed out))` —
   and nothing else: the source does not unsubscribe there.  It only
   runs if the timer was not cancelled by `clearTimeout`. -/
def stepEv {α μ : Type} (interp : μ → Outcome α) (s : ExchangeState α) :
    Ev μ → ExchangeState α
  | .replyMsg m =>
      if s.subOpen then
        settle { s with timerActive := false, subOpen := false } (interp m)
      else s
  | .timerFired =>
      if s.timerActive then
        settle { s with timerActive := false } (.rejected "timeout")
      else s

/-- Running an exchange over a sequence of delivered events. -/
def runEv {α μ : Type} (interp : μ → Outcome α) (s : ExchangeState α)
    (es : List (Ev μ)) : ExchangeState α :=
  es.foldl (stepEv interp) s

/-- State right after either promise executor ran: the reply
subscription is open, the timer is armed, the promise is pending. -/
def initExchange {α : Type} : ExchangeState α :=
  { subOpen := true, timerActive := true, settled := none }

/-- Synchronous actions of the promise executors, in source order. -/
inductive SetupAction : Type
  | startTimer
  | subscribeReply
  | publishRequest
deriving DecidableEq, Repr

/-- The gateway GET /api/invoices executor, in source order:
`setTimeout`, then `subscribeToSubject("invoice.get.response." +
requestId, ...)`, then `publishMessage("invoice.get.request", ...)`. -/
def gatewayGetSetup : List SetupAction :=
  [.startTimer, .subscribeReply, .publishRequest]

/-- The handleSendInvoice executor, in source order: `setTimeout`, then
`natsClient.subscribe("email.send.response." + requestId, ...)`, then
`natsClient.publish("email.send.request", ...)`. -/
def sendInvoiceSetup : List SetupAction :=
  [.startTimer, .subscribeReply, .publishRequest]

/-- Gateway reply callback body after cleanup: `resolve(msg)`, where
`msg` is the payload already decoded by `subscribeToSubject`. -/
def gatewayInterp {α : Type} (m : α) : Outcome α :=
  .resolved m

/-- Payload of a message on the email reply subject as seen by the
handleSendInvoice callback: `none` models data that
`jsonCodec.decode` rejects, otherwise the decoded response envelope
with its optional `error` field. -/
structure EmailResp : Type where
  error : Option String
  messageId : String
deriving DecidableEq, Repr

/-- The handleSendInvoice reply callback after cleanup: decode the
message data; a decode failure rejects, an envelope with an `error`
field rejects with it, anything else resolves with the envelope. -/
def sendInterp (m : Option EmailResp) : Outcome EmailResp :=
  match m with
  | none => .rejected "decode failure"
  | some r =>
      match r.error with
      | some e => .rejected e
      | none => .resolved r

/-- Running the gateway GET exchange from its initial state. -/
def gatewayRun {α : Type} (es : List (Ev α)) : ExchangeState α :=
  runEv gatewayInterp initExchange es

/-- Running the handleSendInvoice email exchange from its initial
state. -/
def sendRun (es : List (Ev (Option EmailResp))) : ExchangeState EmailResp :=
  runEv sendInterp initExchange es

/-! ### Generic lemmas about exchanges -/

/-- Settling never touches the subscription or timer fields. -/
theorem settle_subOpen {α : Type} (s : ExchangeState α) (o : Outcome α) :
    (settle s o).subOpen = s.subOpen := by
  unfold settle
  cases s.settled <;> rfl

/-- Settling never touches the timer field. -/
theorem settle_timerActive {α : Type} (s : ExchangeState α) (o : Outcome α) :
    (settle s o).timerActive = s.timerActive := by
  unfold settle
  cases s.settled <;> rfl

/-- A settled promise stays settled with the same outcome. -/
theorem settle_of_settled {α : Type} (s : ExchangeState α) (o o₀ : Outcome α)
    (h : s.settled = some o₀) : (settle s o).settled = some o₀ := by
  unfold settle
  rw [h]
  exact h

/-- One step preserves an existing settlement. -/
theorem stepEv_settled_frozen {α μ : Type} (interp : μ → Outcome α)
    (s : ExchangeState α) (e : Ev μ) (o₀ : Outcome α)
    (h : s.settled = some o₀) : (stepEv interp s e).settled = some o₀ := by
  cases e with
  | replyMsg m =>
      simp only [stepEv]
      by_cases hs : s.subOpen
      · simp only [hs, if_true]
        exact settle_of_settled _ _ _ h
      · simp only [hs, if_false]
        exact h
  | timerFired =>
      simp only [stepEv]
      by_cases ht : s.timerActive
      · simp only [ht, if_true]
        exact settle_of_settled _ _ _ h
      · simp only [ht, if_false]
        exact h

/-- A run preserves an existing settlement: the promise settles at most
once, whatever later events are delivered. -/
theorem runEv_settled_frozen {α μ : Type} (interp : μ → Outcome α)
    (es : List (Ev μ)) (s : ExchangeState α) (o₀ : Outcome α)
    (h : s.settled = some o₀) : (runEv interp s es).settled = some o₀ := by
  induction es generalizing s with
  | nil => exact h
  | cons e es ih =>
      exact ih (stepEv interp s e) (stepEv_settled_frozen interp s e o₀ h)

/-- The subscription is open after a run exactly when it was open
before and no reply was delivered: the reply callback is the only code
that unsubscribes, and it runs on the first delivered reply. -/
theorem runEv_subOpen {α μ : Type} (interp : μ → Outcome α)
    (es : List (Ev μ)) (s : ExchangeState α) :
    (runEv interp s es).subOpen = (s.subOpen && !es.any Ev.isReply) := by
  induction es generalizing s with
  | nil => simp [runEv]
  | cons e es ih =>
      cases e with
      | replyMsg m =>
          show (runEv interp (stepEv interp s (.replyMsg m)) es).subOpen = _
          rw [ih]
          by_cases hs : s.subOpen
          · have hsub : (stepEv interp s (.replyMsg m)).subOpen = false := by
              simp only [stepEv, hs, if_true]
              rw [settle_subOpen]
            rw [hsub]
            simp [hs, Ev.isReply]
          · have hsub : stepEv interp s (.replyMsg m) = s := by
              simp only [stepEv, hs]
              simp
            rw [hsub]
            simp [Bool.eq_false_iff.mpr hs]
      | timerFired =>
          show (runEv interp (stepEv interp s .timerFired) es).subOpen = _
          rw [ih]
          have hsub : (stepEv interp s .timerFired).subOpen = s.subOpen := by
            simp only [stepEv]
            by_cases ht : s.timerActive
            · simp only [ht, if_true]
              rw [settle_subOpen]
            · simp [ht]
          rw [hsub]
          simp [Ev.isReply]

/-- A reply delivered first settles the exchange with the outcome the
callback computes from it, whatever happens afterwards. -/
theorem runEv_reply_first {α μ : Type} (interp : μ → Outcome α)
    (m : μ) (es : List (Ev μ)) :
    (runEv interp initExchange (.replyMsg m :: es)).settled = some (interp m) := by
  show (runEv interp (stepEv interp initExchange (.replyMsg m)) es).settled = _
  have hstep : (stepEv interp initExchange (.replyMsg m)).settled = some (interp m) := by
    simp [stepEv, initExchange, settle]
  exact runEv_settled_frozen interp es _ (interp m) hstep

/-! ## Worker subscription-loop models

Each loop body (`for await (const msg of sub) { try ... catch ... }`)
is embedded as an iteration function on one message.  A thrown
exception is an `Except.error`; an `Except.error` escaping the
iteration models an exception escaping the catch block, which rejects
the async iteration and terminates the subscription loop.  Business
handlers are parameters (their outcome is all the loop observes). -/

/-- Payload of an email.send.request message as far as the reply logic
reads it: its optional `requestId` field. -/
structure EmailReq : Type where
  requestId : Option String
deriving DecidableEq, Repr

/-- An inbound bus message for the email loop: the NATS reply subject
when present, and the payload — `none` models data that
`jsonCodec.decode` rejects. -/
structure EmailMsg : Type where
  reply : Option String
  raw : Option EmailReq
deriving DecidableEq, Repr

/-- Result of handleSendEmail as pubished in the success envelope. -/
structure EmailResult : Type where
  messageId : String
deriving DecidableEq, Repr

/-- Bodies published by the email loop: a success envelope, an error
envelope, or the email.sent fan-out event. -/
inductive EmailBody : Type
  | ok (r : EmailResult)
  | err (e : String)
  | sent (r : EmailResult)
deriving DecidableEq, Repr

/-- Try-block of one email.send.request iteration (email-svc
`setupSubscriptions`): decode the payload, run handleSendEmail, publish
the result to `msg.reply` or, failing that, to
`email.send.response.<requestId>`, then publish the email.sent event.
A decode or handler exception escapes to the catch block. -/
def emailTryBlock (handler : EmailReq → Except String EmailResult)
    (msg : EmailMsg) : Except String (List (String × EmailBody)) :=
  match msg.raw with
  | none => .error "bad json"
  | some data =>
      match handler data with
      | .error e => .error e
      | .ok result =>
          .ok ((match msg.reply with
                | some r => [(r, EmailBody.ok result)]
                | none =>
                    match data.requestId with
                    | some rid => [("email.send.response." ++ rid, EmailBody.ok result)]
                    | none => []) ++ [("email.sent", EmailBody.sent result)])

/-- Catch-block of the email loop.  The source runs
`const data = jsonCodec.decode(msg.data)` again with no guard before
building the error reply; on an undecodable payload that decode throws
a second time and the exception escapes the catch block. -/
def emailCatchBlock (msg : EmailMsg) (e : String) :
    Except String (List (String × EmailBody)) :=
  match msg.raw with
  | none => .error "bad json"
  | some data =>
      .ok (match msg.reply with
           | some r => [(r, EmailBody.err e)]
           | none =>
               match data.requestId with
               | some rid => [("email.send.response." ++ rid, EmailBody.err e)]
               | none => [])

/-- One iteration of the email.send.request loop. -/
def emailIter (handler : EmailReq → Except String EmailResult)
    (msg : EmailMsg) : Except String (List (String × EmailBody)) :=
  match emailTryBlock handler msg with
  | .ok pubs => .ok pubs
  | .error e => emailCatchBlock msg e

/-- The email.send.request subscription loop over a list of delivered
messages: published messages, and whether an exception escaped an
iteration and terminated the loop (dropping the remaining messages). -/
def emailLoop (handler : EmailReq → Except String EmailResult) :
    List EmailMsg → List (String × EmailBody) × Bool
  | [] => ([], false)
  | m :: ms =>
      match emailIter handler m with
      | .ok pubs =>
          let rest := emailLoop handler ms
          (pubs ++ rest.1, rest.2)
      | .error _ => ([], true)

/-- Payload of an invoice.get.request message, as read by the reply
logic: its optional `requestId`. -/
structure GetReq : Type where
  requestId : Option String
deriving DecidableEq, Repr

/-- An inbound message for the invoice.get.request loop. -/
structure GetMsg : Type where
  reply : Option String
  raw : Option GetReq
deriving DecidableEq, Repr

/-- Result of handleGetInvoice; its contents are opaque to the loop. -/
structure GetResult : Type where
  page : Nat
deriving DecidableEq, Repr

/-- Bodies published by the invoice.get.request loop. -/
inductive GetBody : Type
  | ok (r : GetResult)
  | err (e : String)
deriving DecidableEq, Repr

/-- Try-block of one invoice.get.request iteration (invoice-svc
`setupSubscriptions`). -/
def invoiceGetTryBlock (handler : GetReq → Except String GetResult)
    (msg : GetMsg) : Except String (List (String × GetBody)) :=
  match msg.raw with
  | none => .error "bad json"
  | some data =>
      match handler data with
      | .error e => .error e
      | .ok result =>
          .ok (match msg.reply with
               | some r => [(r, GetBody.ok result)]
               | none =>
                   match data.requestId with
                   | some rid => [("invoice.get.response." ++ rid, GetBody.ok result)]
                   | none => [])

/-- Catch-block of the invoice.get.request loop.  Unlike the email
loop, the second decode sits inside a nested try whose catch only
logs, so an undecodable payload cannot escape. -/
def invoiceGetCatchBlock (msg : GetMsg) (e : String) : List (String × GetBody) :=
  match msg.reply with
  | some r => [(r, GetBody.err e)]
  | none =>
      match msg.raw with
      | some reqData =>
          match reqData.requestId with
          | some rid => [("invoice.get.response." ++ rid, GetBody.err e)]
          | none => []
      | none => []

/-- One iteration of the invoice.get.request loop; every exception is
handled inside the iteration. -/
def invoiceGetIter (handler : GetReq → Except String GetResult)
    (msg : GetMsg) : Except String (List (String × GetBody)) :=
  match invoiceGetTryBlock handler msg with
  | .ok pubs => .ok pubs
  | .error e => .ok (invoiceGetCatchBlock msg e)

/-- Payload of a payment.create.request message; the source reply
logic never reads a requestId from it, but the field is carried to
state what the loop ignores. -/
structure PayReq : Type where
  requestId : Option String
deriving DecidableEq, Repr

/-- An inbound message for the payment.create.request loop. -/
structure PayMsg : Type where
  reply : Option String
  raw : Option PayReq
deriving DecidableEq, Repr

/-- Result of handleCreatePayment; opaque to the loop. -/
structure PayResult : Type where
  paymentId : String
deriving DecidableEq, Repr

/-- Bodies published by the payment.create.request loop. -/
inductive PayBody : Type
  | ok (r : PayResult)
  | err (e : String)
deriving DecidableEq, Repr

/-- One iteration of the payment.create.request loop (payment-svc
`setupSubscriptions`): the success and the error branch publish only
when `msg.reply` is present; there is no requestId fallback. -/
def paymentCreateIter (handler : PayReq → Except String PayResult)
    (msg : PayMsg) : List (String × PayBody) :=
  match msg.raw with
  | none =>
      match msg.reply with
      | some r => [(r, PayBody.err "bad json")]
      | none => []
  | some data =>
      match handler data with
      | .error e =>
          match msg.reply with
          | some r => [(r, PayBody.err e)]
          | none => []
      | .ok result =>
          match msg.reply with
          | some r => [(r, PayBody.ok result)]
          | none => []

/-- Payload of an invoice.create message; opaque to the loop logic. -/
structure CreateReq : Type where
  organizationId : String
deriving DecidableEq, Repr

/-- An inbound message for the invoice.create loop. -/
structure CreateMsg : Type where
  reply : Option String
  raw : Option CreateReq
deriving DecidableEq, Repr

/-- Result of handleCreateInvoice as seen by the loop. -/
structure CreatedInvoice : Type where
  id : String
deriving DecidableEq, Repr

/-- Bodies published by the invoice.create loop: reply envelopes and
the invoice.created fan-out event. -/
inductive CreateBody : Type
  | ok (inv : CreatedInvoice)
  | err (e : String)
  | createdEvent (inv : CreatedInvoice)
deriving DecidableEq, Repr

/-- Catch-block of the invoice.create loop: publish an error envelope
to the reply subject when one is present. -/
def invoiceCreateCatch (msg : CreateMsg) (e : String) : List (String × CreateBody) :=
  match msg.reply with
  | some r => [(r, CreateBody.err e)]
  | none => []

/-- One iteration of the invoice.create loop (invoice-svc
`setupSubscriptions`).  The reply publish and the invoice.created
fan-out publish sit in the same try block, in that order;
`fanoutPublishOk = false` models the fan-out `natsClient.publish`
throwing (for example on a closed connection), in which case the
messages already published stay published and control moves to the
catch block. -/
def invoiceCreateIter (handler : CreateReq → Except String CreatedInvoice)
    (fanoutPublishOk : Bool) (msg : CreateMsg) : List (String × CreateBody) :=
  match msg.raw with
  | none => invoiceCreateCatch msg "bad json"
  | some data =>
      match handler data with
      | .error e => invoiceCreateCatch msg e
      | .ok inv =>
          let replyPubs := match msg.reply with
            | some r => [(r, CreateBody.ok inv)]
            | none => []
          if fanoutPublishOk then
            replyPubs ++ [("invoice.created", CreateBody.createdEvent inv)]
          else
            replyPubs ++ invoiceCreateCatch msg "fanout publish failed"

/-- Messages of a publish list addressed to one subject. -/
def pubsTo {β : Type} (subject : String) (pubs : List (String × β)) : List β :=
  (pubs.filter (fun p => p.1 = subject)).map Prod.snd

/-! ## Lifecycle / shutdown model

Embeds `setupGracefulShutdown` of invoice-svc, email-svc and
payment-svc: the shutdown closure iterates `unsubscribe()` over the
module-level `subscriptions` array and then awaits
`natsClient.close()`.  Call counts are tracked so that repeated calls
are observable.  Both bus operations are total here because the NATS
client treats a repeated unsubscribe and a repeated close as no-ops
rather than errors. -/

/-- A tracked SubscriptionHandle: whether it has been unsubscribed and
how many times unsubscribe was invoked on it. -/
structure Handle : Type where
  closed : Bool
  unsubCalls : Nat
deriving DecidableEq, Repr

/-- The bus connection: whether it is closed and how many times close
was invoked. -/
structure Conn : Type where
  closed : Bool
  closeCalls : Nat
deriving DecidableEq, Repr

/-- State of a worker service process: its tracked subscriptions and
its connection. -/
structure SvcState : Type where
  subs : List Handle
  conn : Conn
deriving DecidableEq, Repr

/-- `Subscription.unsubscribe()`: marks the subscription closed; on an
already-closed subscription it is a tolerated no-op and does not
throw. -/
def unsubscribeCall (h : Handle) : Handle :=
  { closed := true, unsubCalls := h.unsubCalls + 1 }

/-- `NatsConnection.close()`: marks the connection closed; closing an
already-closed connection resolves without error. -/
def closeCall (c : Conn) : Conn :=
  { closed := true, closeCalls := c.closeCalls + 1 }

/-- The shutdown closure: unsubscribe every tracked subscription, then
close the connection.  The source keeps no flag recording that
shutdown already ran, so nothing in it is conditional on a previous
run. -/
def shutdownRun (s : SvcState) : SvcState :=
  { subs := s.subs.map unsubscribeCall, conn := closeCall s.conn }

/-! ## Gateway fallback and handleSendInvoice models (C9, C10) -/

/-- HTTP result of the gateway GET /api/invoices handler: the worker
payload, the hard-coded mock invoice list, or the structured JSON
error produced by the outer catch. -/
inductive GetInvoicesHttp (π : Type) : Type
  | okPayload (p : π)
  | okMockList
  | serverError (statusCode : Nat) (error : String) (message : String)
deriving DecidableEq, Repr

/-- The gateway GET /api/invoices handler after the exchange settles
(`invoice.routes.ts`): a resolved promise is returned as the response;
a rejected one falls back to mock data unless NODE_ENV is production,
in which case the rethrown error reaches the outer catch and becomes a
500 with a structured JSON body. -/
def gatewayGetHttp {π : Type} (nodeEnv : String) (outcome : Except String π) :
    GetInvoicesHttp π :=
  match outcome with
  | .ok p => .okPayload p
  | .error _ =>
      if nodeEnv ≠ "production" then
        .okMockList
      else
        .serverError 500 "Internal Server Error"
          "An error occurred while fetching invoices"

/-- Return value of handleSendInvoice: the real send confirmation or
the development-mode simulated one (the object carrying `mock: true`
and a `mock-` message id). -/
inductive SendResult : Type
  | sentOk (email : String) (messageId : String)
  | mockOk (email : String) (messageId : String)
deriving DecidableEq, Repr

/-- The tail of handleSendInvoice after the email exchange settles:
a resolved exchange returns the confirmation; a rejected one returns
the simulated success unless NODE_ENV is production, in which case the
error is rethrown to the caller. -/
def sendInvoiceEmailPhase (nodeEnv custEmail requestId : String)
    (outcome : Except String EmailResp) : Except String SendResult :=
  match outcome with
  | .ok resp => .ok (.sentOk custEmail resp.messageId)
  | .error e =>
      if nodeEnv ≠ "production" then
        .ok (.mockOk custEmail ("mock-" ++ requestId))
      else
        .error e

/-- Externally visible effects of handleSendInvoice used by C10. -/
inductive SendEffect : Type
  | dbUpdateStatus (status : String)
  | pubEmailRequest
deriving DecidableEq, Repr

/-- handleSendInvoice on the path where the fetches and the status
update succeed: it updates the invoice row to status sent with sent_at
set, then publishes email.send.request and awaits the reply; no
branch after the update writes the row again, in particular not the
throwing error path. -/
def handleSendInvoiceRun (nodeEnv custEmail requestId : String)
    (outcome : Except String EmailResp) :
    List SendEffect × Except String SendResult :=
  ([.dbUpdateStatus "sent", .pubEmailRequest],
   sendInvoiceEmailPhase nodeEnv custEmail requestId outcome)

/-- Invoice status after replaying a list of effects over an initial
status: the last dbUpdateStatus wins, other effects leave it alone. -/
def finalStatus (initial : String) (effs : List SendEffect) : String :=
  effs.foldl
    (fun st e =>
      match e with
      | .dbUpdateStatus s => s
      | .pubEmailRequest => st) initial

/-! ## handleCreateInvoice totals (C8)

Numeric arithmetic of `createInvoice.ts` is embedded over exact
rationals. -/

/-- One invoice line item as read by handleCreateInvoice. -/
structure InvoiceItem : Type where
  quantity : ℚ
  unitPrice : ℚ
deriving DecidableEq, Repr

/-- The per-item amount: `item.quantity * item.unit_price`. -/
def itemAmount (it : InvoiceItem) : ℚ :=
  it.quantity * it.unitPrice

/-- The running `subtotal` accumulated by the `items.map` pass of
handleCreateInvoice. -/
def subtotalOf (items : List InvoiceItem) : ℚ :=
  items.foldl (fun acc it => acc + itemAmount it) 0

/-- The hard-coded default tax rate `0.20`. -/
def invoiceTaxRate : ℚ :=
  20 / 100

/-- `taxAmount = subtotal * taxRate`. -/
def taxAmountOf (items : List InvoiceItem) : ℚ :=
  subtotalOf items * invoiceTaxRate

/-- `totalAmount = subtotal + taxAmount`. -/
def totalAmountOf (items : List InvoiceItem) : ℚ :=
  subtotalOf items + taxAmountOf items

/-- The subtotal in the words of the claim: the sum over all items of
quantity times unit price. -/
def claimSubtotal (items : List InvoiceItem) : ℚ :=
  (items.map (fun it => it.quantity * it.unitPrice)).sum

/-! ## Claim theorems -/

/-- Claim C3 (confirmed): in both request() exchanges the executor
subscribes to the reply subject strictly before publishing the request
(the subscribe action precedes the publish action in source order),
and consequently a reply delivered before the timer fires settles the
call from that reply — the gateway call resolves with the reply
payload, the handleSendInvoice call settles with what its callback
decodes from the reply — and never times out, whatever is delivered
afterwards. -/
theorem C3_subscribe_before_publish_no_lost_reply :
    (gatewayGetSetup.indexOf .subscribeReply < gatewayGetSetup.indexOf .publishRequest
      ∧ sendInvoiceSetup.indexOf .subscribeReply < sendInvoiceSetup.indexOf .publishRequest)
    ∧ (∀ (α : Type) (m : α) (es : List (Ev α)),
        (gatewayRun (.replyMsg m :: es)).settled = some (.resolved m))
    ∧ (∀ (m : Option EmailResp) (es : List (Ev (Option EmailResp))),
        (sendRun (.replyMsg m :: es)).settled = some (sendInterp m)) := by
  refine ⟨⟨by decide, by decide⟩, ?_, ?_⟩
  · intro α m es
    exact runEv_reply_first gatewayInterp m es
  · intro m es
    exact runEv_reply_first sendInterp m es

/-- Claim C4 (confirmed): the first delivered reply settles the
promise, and it cancels the timer and unsubscribes at once; afterwards
every further event — a second reply on the same subject or the timer
firing — leaves the exchange state completely unchanged, so the
promise is never settled a second time.  Stated for the gateway
exchange and for the handleSendInvoice exchange. -/
theorem C4_single_settlement :
    (∀ (α : Type) (m₁ : α),
        (stepEv gatewayInterp initExchange (.replyMsg m₁)).settled = some (.resolved m₁)
        ∧ (stepEv gatewayInterp initExchange (.replyMsg m₁)).subOpen = false
        ∧ (stepEv gatewayInterp initExchange (.replyMsg m₁)).timerActive = false
        ∧ ∀ (e : Ev α),
            stepEv gatewayInterp (stepEv gatewayInterp initExchange (.replyMsg m₁)) e
              = stepEv gatewayInterp initExchange (.replyMsg m₁))
    ∧ (∀ (m₁ m₂ : Option EmailResp) (es : List (Ev (Option EmailResp))),
        (sendRun (.replyMsg m₁ :: .replyMsg m₂ :: es)).settled = some (sendInterp m₁)) := by
  constructor
  · intro α m₁
    refine ⟨by simp [stepEv, initExchange, settle, gatewayInterp],
      by simp [stepEv, initExchange, settle], by simp [stepEv, initExchange, settle], ?_⟩
    intro e
    cases e with
    | replyMsg m => simp [stepEv, initExchange, settle]
    | timerFired => simp [stepEv, initExchange, settle]
  · intro m₁ m₂ es
    exact runEv_reply_first sendInterp m₁ (.replyMsg m₂ :: es)

/-- Claim C1, counterexample: when the timer fires before any reply,
both exchanges settle as a timeout rejection while the reply
subscription remains open — the subscription count for the reply
subject does not return to zero on the timeout path. -/
theorem C1_timeout_leaves_subscription_open :
    (gatewayRun (α := Nat) [.timerFired]).settled = some (.rejected "timeout")
    ∧ (gatewayRun (α := Nat) [.timerFired]).subOpen = true
    ∧ (sendRun [.timerFired]).settled = some (.rejected "timeout")
    ∧ (sendRun [.timerFired]).subOpen = true := by
  refine ⟨?_, ?_, ?_, ?_⟩ <;> decide

/-- Claim C1 (corrected): the reply SubscriptionHandle is released
exactly when a reply is delivered: after any event sequence, the
subscription is open precisely when no reply message was delivered.
In particular the success path unsubscribes, while an exchange settled
by the timeout alone keeps its reply subscription open — the
timeout-rejection path performs no cleanup, and the handle is released
only if a (possibly late) reply eventually invokes the callback. -/
theorem C1_cleanup_only_on_reply :
    (∀ (α : Type) (es : List (Ev α)),
        (gatewayRun es).subOpen = !es.any Ev.isReply)
    ∧ (∀ (es : List (Ev (Option EmailResp))),
        (sendRun es).subOpen = !es.any Ev.isReply) := by
  constructor
  · intro α es
    have h := runEv_subOpen gatewayInterp es (initExchange (α := α))
    simpa [initExchange] using h
  · intro es
    have h := runEv_subOpen sendInterp es (initExchange (α := EmailResp))
    simpa [initExchange] using h

/-- Claim C2 (code bug), evaluation at the failing input: a message
with an undecodable payload makes the email.send.request loop catch
block rethrow while re-decoding, which terminates the loop — the
following well-formed message is never processed — whereas the
invoice.get.request loop handles the same shape of message inside its
iteration (its nested try) and continues. -/
theorem C2_email_decode_error_kills_loop :
    emailIter (fun _ => .ok ⟨"mid-1"⟩) ⟨none, none⟩ = .error "bad json"
    ∧ emailLoop (fun _ => .ok ⟨"mid-1"⟩)
        [⟨none, none⟩, ⟨none, some ⟨some "r2"⟩⟩] = ([], true)
    ∧ invoiceGetIter (fun _ => .ok ⟨1⟩) ⟨none, none⟩ = .ok []
    ∧ emailLoop (fun _ => .ok ⟨"mid-1"⟩) [⟨none, some ⟨some "r2"⟩⟩]
        = ([("email.send.response.r2", .ok ⟨"mid-1"⟩), ("email.sent", .sent ⟨"mid-1"⟩)], false) := by
  refine ⟨rfl, ?_, rfl, rfl⟩
  decide

/-- Claim C5, counterexample: starting from one live subscription and
an open connection, running the shutdown closure twice invokes
unsubscribe twice on that handle and close twice on the connection —
the second run does re-unsubscribe the already-unsubscribed handle and
does re-close the already-closed connection. -/
theorem C5_double_shutdown_repeats_calls :
    shutdownRun (shutdownRun ⟨[⟨false, 0⟩], ⟨false, 0⟩⟩)
      = ⟨[⟨true, 2⟩], ⟨true, 2⟩⟩ := by
  decide

/-- Claim C5 (corrected): the shutdown closure is total — repeated
unsubscribe and close are tolerated no-ops of the NATS client, so a
second shutdown does not throw — but it is not guarded: run twice it
invokes unsubscribe a second time on every tracked handle and close a
second time on the connection, leaving every handle and the connection
closed with both call counters incremented twice. -/
theorem C5_shutdown_unguarded_but_total :
    ∀ (s : SvcState),
      (shutdownRun (shutdownRun s)).conn
          = { closed := true, closeCalls := s.conn.closeCalls + 2 }
      ∧ (shutdownRun (shutdownRun s)).subs
          = s.subs.map (fun h => { closed := true, unsubCalls := h.unsubCalls + 2 }) := by
  intro s
  constructor
  · rfl
  · show (s.subs.map unsubscribeCall).map unsubscribeCall = _
    rw [List.map_map]
    rfl

/-- Claim C6, counterexample: a payment.create.request message that
carries no reply address but whose payload has requestId r1 produces
no publish at all — in particular nothing is published to
payment.create.response.r1, so the fallback convention is not
supported by this handler. -/
theorem C6_payment_lacks_requestId_fallback :
    paymentCreateIter (fun _ => .ok ⟨"pay-1"⟩) ⟨none, some ⟨some "r1"⟩⟩ = []
    ∧ pubsTo "payment.create.response.r1"
        (paymentCreateIter (fun _ => .ok ⟨"pay-1"⟩) ⟨none, some ⟨some "r1"⟩⟩) = [] := by
  refine ⟨?_, ?_⟩ <;> decide

/-- Claim C6 (corrected): the invoice.get.request and
email.send.request handlers support both correlation conventions —
with a reply address the envelope goes there, and without one a
payload requestId routes the success or error envelope to the
conventional response subject — but the payment-svc handlers publish
only to the reply address: with no reply address they publish nothing,
whatever the handler outcome and whatever requestId the payload
carries. -/
theorem C6_fallback_in_invoice_and_email_only :
    (∀ (res : GetResult) (rid : String),
        invoiceGetIter (fun _ => .ok res) ⟨none, some ⟨some rid⟩⟩
          = .ok [("invoice.get.response." ++ rid, .ok res)])
    ∧ (∀ (e : String) (rid : String),
        invoiceGetIter (fun _ => .error e) ⟨none, some ⟨some rid⟩⟩
          = .ok [("invoice.get.response." ++ rid, .err e)])
    ∧ (∀ (res : EmailResult) (rid : String),
        emailIter (fun _ => .ok res) ⟨none, some ⟨some rid⟩⟩
          = .ok [("email.send.response." ++ rid, .ok res), ("email.sent", .sent res)])
    ∧ (∀ (e : String) (rid : String),
        emailIter (fun _ => .error e) ⟨none, some ⟨some rid⟩⟩
          = .ok [("email.send.response." ++ rid, .err e)])
    ∧ (∀ (handler : PayReq → Except String PayResult) (p : PayReq),
        paymentCreateIter handler ⟨none, some p⟩ = []) := by
  refine ⟨?_, ?_, ?_, ?_, ?_⟩
  · intro res rid
    rfl
  · intro e rid
    rfl
  · intro res rid
    rfl
  · intro e rid
    rfl
  · intro handler p
    show (match handler p with
          | .error _ => _
          | .ok _ => _) = ([] : List (String × PayBody))
    cases handler p <;> rfl

/-- Claim C7, counterexample: with a reply address present, a
successful handleCreateInvoice followed by a throwing invoice.created
fan-out publish makes the shared catch publish a second envelope — an
error envelope — to the reply subject that already received the
success envelope: two envelopes reach the reply subject, not exactly
one. -/
theorem C7_fanout_failure_double_envelope :
    invoiceCreateIter (fun _ => .ok ⟨"inv-1"⟩) false ⟨some "R", some ⟨"org-1"⟩⟩
      = [("R", .ok ⟨"inv-1"⟩), ("R", .err "fanout publish failed")]
    ∧ (pubsTo "R"
        (invoiceCreateIter (fun _ => .ok ⟨"inv-1"⟩) false ⟨some "R", some ⟨"org-1"⟩⟩)).length
        = 2 := by
  refine ⟨?_, ?_⟩ <;> decide

/-- Claim C7 (corrected): when the inbound invoice.create message
carries a reply address, exactly one ResponseEnvelope is published to
it — the success result or the error envelope — provided the fan-out
publish does not throw; but the fan-out step is not independent of the
reply step: it runs inside the same try block after the reply, and if
it throws after a successful reply the shared catch publishes a
second, error envelope to the same reply address. -/
theorem C7_reply_envelope_unless_fanout_throws :
    (∀ (inv : CreatedInvoice) (data : CreateReq) (r : String),
        invoiceCreateIter (fun _ => .ok inv) true ⟨some r, some data⟩
          = [(r, .ok inv), ("invoice.created", .createdEvent inv)])
    ∧ (∀ (e : String) (data : CreateReq) (r : String) (b : Bool),
        invoiceCreateIter (fun _ => .error e) b ⟨some r, some data⟩ = [(r, .err e)])
    ∧ (∀ (inv : CreatedInvoice) (data : CreateReq) (r : String),
        invoiceCreateIter (fun _ => .ok inv) false ⟨some r, some data⟩
          = [(r, .ok inv), (r, .err "fanout publish failed")]) := by
  refine ⟨?_, ?_, ?_⟩
  · intro inv data r
    rfl
  · intro e data r b
    cases b <;> rfl
  · intro inv data r
    rfl

/-- Generalized fold of the running subtotal of handleCreateInvoice. -/
theorem subtotal_foldl (items : List InvoiceItem) (a : ℚ) :
    items.foldl (fun acc it => acc + itemAmount it) a
      = a + (items.map (fun it => it.quantity * it.unitPrice)).sum := by
  induction items generalizing a with
  | nil => simp
  | cons it items ih =>
      simp only [List.foldl_cons, List.map_cons, List.sum_cons]
      rw [ih]
      unfold itemAmount
      ring

/-- Claim C8 (confirmed): handleCreateInvoice computes the subtotal as
the sum over all items of quantity times unit price, the tax amount as
0.20 times the subtotal, and the total as subtotal plus tax amount;
for the single item with quantity 2 and unit price 100 the total
amount is 240. -/
theorem C8_create_invoice_totals :
    (∀ (items : List InvoiceItem),
        subtotalOf items = claimSubtotal items
        ∧ taxAmountOf items = (20 / 100 : ℚ) * subtotalOf items
        ∧ totalAmountOf items = subtotalOf items + taxAmountOf items)
    ∧ totalAmountOf [⟨2, 100⟩] = 240 := by
  constructor
  · intro items
    refine ⟨?_, ?_, rfl⟩
    · unfold subtotalOf claimSubtotal
      rw [subtotal_foldl]
      ring
    · unfold taxAmountOf invoiceTaxRate
      ring
  · show subtotalOf [⟨2, 100⟩] + taxAmountOf [⟨2, 100⟩] = 240
    have hs : subtotalOf [⟨2, 100⟩] = 200 := by
      unfold subtotalOf itemAmount
      norm_num
    rw [taxAmountOf, hs, invoiceTaxRate]
    norm_num

/-- Claim C9 (confirmed): the synthetic fallback is active only
outside production.  When the exchange fails and NODE_ENV equals
production, the gateway GET handler returns the structured 500 JSON
error and handleSendInvoice rethrows the error — neither mock payload
is produced; when NODE_ENV differs from production, the gateway
returns the mock invoice list and handleSendInvoice returns the
simulated success instead. -/
theorem C9_mock_fallback_gated_to_development :
    ∀ (π : Type) (e nodeEnv custEmail rid : String),
      (nodeEnv = "production" →
        gatewayGetHttp (π := π) nodeEnv (.error e)
            = .serverError 500 "Internal Server Error"
                "An error occurred while fetching invoices"
        ∧ sendInvoiceEmailPhase nodeEnv custEmail rid (.error e) = .error e)
      ∧ (nodeEnv ≠ "production" →
        gatewayGetHttp (π := π) nodeEnv (.error e) = .okMockList
        ∧ sendInvoiceEmailPhase nodeEnv custEmail rid (.error e)
            = .ok (.mockOk custEmail ("mock-" ++ rid))) := by
  intro π e nodeEnv custEmail rid
  constructor
  · intro hprod
    subst hprod
    exact ⟨rfl, rfl⟩
  · intro hdev
    constructor
    · simp [gatewayGetHttp, hdev]
    · simp [sendInvoiceEmailPhase, hdev]

/-- Witness for C9 at NODE_ENV production and NODE_ENV development. -/
theorem C9_mock_fallback_gated_to_development_witness :
    (gatewayGetHttp (π := Nat) "production" (.error "timeout")
        = .serverError 500 "Internal Server Error"
            "An error occurred while fetching invoices"
      ∧ sendInvoiceEmailPhase "production" "a@b.c" "req1" (.error "timeout")
        = .error "timeout")
    ∧ (gatewayGetHttp (π := Nat) "development" (.error "timeout") = .okMockList
      ∧ sendInvoiceEmailPhase "development" "a@b.c" "req1" (.error "timeout")
        = .ok (.mockOk "a@b.c" ("mock-" ++ "req1"))) :=
  ⟨(C9_mock_fallback_gated_to_development Nat "timeout" "production" "a@b.c" "req1").1 rfl,
   (C9_mock_fallback_gated_to_development Nat "timeout" "development" "a@b.c" "req1").2
     (by decide)⟩

/-- Claim C10 (confirmed): handleSendInvoice performs the database
update to status sent strictly before publishing email.send.request,
and when the email exchange fails and NODE_ENV equals production the
call rethrows the error without any further status write — replaying
its effects over an invoice that started as draft leaves it marked
sent even though no email was delivered. -/
theorem C10_status_sent_before_email_no_rollback :
    ∀ (nodeEnv custEmail rid e : String) (outcome : Except String EmailResp),
      ((handleSendInvoiceRun nodeEnv custEmail rid outcome).1.indexOf
          (.dbUpdateStatus "sent")
        < (handleSendInvoiceRun nodeEnv custEmail rid outcome).1.indexOf .pubEmailRequest)
      ∧ (nodeEnv = "production" →
          (handleSendInvoiceRun nodeEnv custEmail rid (.error e)).2 = .error e
          ∧ finalStatus "draft" (handleSendInvoiceRun nodeEnv custEmail rid (.error e)).1
              = "sent") := by
  intro nodeEnv custEmail rid e outcome
  constructor
  · simp only [handleSendInvoiceRun]
    decide
  · intro hprod
    subst hprod
    exact ⟨rfl, rfl⟩

/-- Witness for C10 at NODE_ENV production with a timed-out email
exchange. -/
theorem C10_status_sent_before_email_no_rollback_witness :
    ((handleSendInvoiceRun "production" "a@b.c" "req1" (.error "timeout")).1.indexOf
        (.dbUpdateStatus "sent")
      < (handleSendInvoiceRun "production" "a@b.c" "req1"
          (.error "timeout")).1.indexOf .pubEmailRequest)
    ∧ (handleSendInvoiceRun "production" "a@b.c" "req1" (.error "timeout")).2
        = .error "timeout"
    ∧ finalStatus "draft"
        (handleSendInvoiceRun "production" "a@b.c" "req1" (.error "timeout")).1 = "sent" := by
  have h := C10_status_sent_before_email_no_rollback "production" "a@b.c" "req1"
    "timeout" (.error "timeout")
  exact ⟨h.1, (h.2 rfl).1, (h.2 rfl).2⟩

end Microsaas
